import Mathlib

/-!
Verification of the Cross-Process Progress Aggregation subsystem
(`src/younger/commons/progress.py`, class `MultipleProcessProgressManager`).

The Python class is shallowly embedded as follows:
* the manager object is a record of its three attributes (`queue` is modelled as
  an abstract handle, since only the handle — never the contents — is part of
  the object's state; the channel contents are passed around explicitly as a
  `List ℤ` wherever a method reads the queue);
* the worker-side methods `update` and `final` are pure: they return the list
  of messages they put on the queue (`[]` or a singleton);
* the coordinator-side `ProgressTracker` methods act on the explicit queue
  contents and a `DisplaySink` record modelling the `tqdm` bar
  (`displayed_total` = accumulated bar position, `closed` flag);
* the `progress` context manager is modelled as a function of how its body
  exits (normally or with an exception) together with the queue contents and
  bar state at the moment of exit: the `try/finally` in the source runs the
  same `drain_remaining(); close()` sequence on both paths.

Python `int(x)` truncates toward zero; `pyint` models it exactly.  Python `%`
and `//` on the non-negative operands that occur here agree with `Nat.mod` and
`Nat.div`.  The `float` attribute `step` is modelled as a rational number.
-/

section ProgressEmbedding

attribute [local semireducible] Rat.mul Rat.inv Rat.add Rat.sub

/-- Model of the manager object: its three attributes (progress.py lines 56-66).
The real `queue` attribute is a `multiprocessing.Manager().Queue()` proxy; only
its identity (handle) belongs to the object state, modelled as a `ℕ` tag. -/
structure MultipleProcessProgressManager where
  queue : ℕ
  worker_number : ℕ
  step : ℚ
  deriving DecidableEq

/-- `__init__(worker_number=1, step=0.005)`: stores `worker_number` and `step`
and creates a fresh queue (progress.py lines 56-66).  Queue creation is
modelled by receiving the fresh handle.  The source performs no validation of
`step` whatsoever. -/
def MultipleProcessProgressManager.init (queue_handle worker_number : ℕ) (step : ℚ) :
    MultipleProcessProgressManager :=
  { queue := queue_handle, worker_number := worker_number, step := step }

/-- The dictionary returned by `__getstate__` (progress.py lines 68-74): it has
exactly the three keys `queue`, `worker_number`, `step`. -/
structure ManagerPickleState where
  queue : ℕ
  worker_number : ℕ
  step : ℚ
  deriving DecidableEq

/-- `__getstate__` (progress.py lines 68-74). -/
def MultipleProcessProgressManager.getstate (m : MultipleProcessProgressManager) :
    ManagerPickleState :=
  { queue := m.queue, worker_number := m.worker_number, step := m.step }

/-- `__setstate__` (progress.py lines 76-80). -/
def MultipleProcessProgressManager.setstate (s : ManagerPickleState) :
    MultipleProcessProgressManager :=
  { queue := s.queue, worker_number := s.worker_number, step := s.step }

/-- Python `int()` applied to a rational: truncation toward zero. -/
def pyint (q : ℚ) : ℤ := if q < 0 then ⌈q⌉ else ⌊q⌋

/-- Fuelled helper for `natLog2`: structural recursion so that concrete values
reduce in the kernel. -/
def natLog2F : ℕ → ℕ → ℕ
  | 0, _ => 0
  | fuel + 1, n => if n ≤ 1 then 0 else natLog2F fuel (n / 2) + 1

/-- Binary logarithm rounded down, `⌊log2 n⌋` for `n ≥ 1` (the recursion depth
is at most `log2 n + 1 ≤ n`, so `n` itself is sufficient fuel). -/
def natLog2 (n : ℕ) : ℕ := natLog2F n n

/-- Fuelled helper for `natClog2`. -/
def natClog2F : ℕ → ℕ → ℕ
  | 0, _ => 0
  | fuel + 1, n => if n ≤ 1 then 0 else natClog2F fuel ((n + 1) / 2) + 1

/-- Binary logarithm rounded up, `⌈log2 n⌉` for `n ≥ 1`. -/
def natClog2 (n : ℕ) : ℕ := natClog2F n n

/-- Floor of the binary logarithm of a positive rational: for `q ≥ 1` it is
`⌊log2 ⌊q⌋⌋`, and for `0 < q < 1` it is `-⌈log2 q⁻¹⌉` (meaningful for
`q > 0`, which is the only range it is applied to). -/
def ratFloorLog2 (q : ℚ) : ℤ :=
  if 1 ≤ q then (natLog2 ⌊q⌋.toNat : ℤ) else -(natClog2 ⌈q⁻¹⌉.toNat : ℤ)

/-- Round a rational to the nearest integer, ties to even — the IEEE 754
default rounding of a significand. -/
def roundTiesToEven (x : ℚ) : ℤ :=
  let n := ⌊x⌋
  let r := x - (n : ℚ)
  if r < 1/2 then n
  else if (1 : ℚ)/2 < r then n + 1
  else if n % 2 = 0 then n else n + 1

/-- Binary64 (IEEE 754 double) rounding of a non-negative rational in the
normal range: scale `q` so that its significand occupies 53 bits
(`⌊log2 q⌋ - 52` is the exponent of the unit in the last place), round the
significand to the nearest integer with ties to even, and scale back.
Overflow and subnormals are outside the modelled range (every value the
claims touch is far inside it). -/
def fl64pos (q : ℚ) : ℚ :=
  let e : ℤ := ratFloorLog2 q
  if e ≤ 52 then
    let s : ℕ := (52 - e).toNat
    (roundTiesToEven (q * ((2 ^ s : ℕ) : ℚ)) : ℚ) / ((2 ^ s : ℕ) : ℚ)
  else
    let s : ℕ := (e - 52).toNat
    (roundTiesToEven (q / ((2 ^ s : ℕ) : ℚ)) : ℚ) * ((2 ^ s : ℕ) : ℚ)

/-- Binary64 rounding of a rational of either sign (IEEE rounding is
sign-symmetric). -/
def fl64 (q : ℚ) : ℚ := if q < 0 then -fl64pos (-q) else fl64pos q

/-- The local variable `update_interval = max(1, int(total * self.step))`
computed identically in `update` (line 96) and `final` (line 107), reading the
float product `total * self.step` as exact rational arithmetic.  The Python
value is an `int ≥ 1`, represented as `ℕ`.  The binary64 reading of the same
source line is `update_interval_fl64` below; the two coincide whenever the
product is exactly representable (and also, thanks to the `max(1, ·)` clamp,
whenever the product is below 1). -/
def MultipleProcessProgressManager.update_interval (m : MultipleProcessProgressManager)
    (total : ℕ) : ℕ :=
  (max 1 (pyint ((total : ℚ) * m.step))).toNat

/-- The same source line `max(1, int(total * self.step))` (lines 96 and 107)
under binary64 semantics: `total` converts to float exactly (all totals here
are far below 2^53), the single multiplication rounds once to the nearest
double, and `int()` truncates.  Faithful when `m.step` holds a value
representable as a double — as the stored float attribute always does. -/
def MultipleProcessProgressManager.update_interval_fl64 (m : MultipleProcessProgressManager)
    (total : ℕ) : ℕ :=
  (max 1 (pyint (fl64 ((total : ℚ) * m.step)))).toNat

/-- `update(current_index, total)` (progress.py lines 82-98): puts
`update_interval` on the queue when `current_index > 0` and
`current_index % update_interval == 0`, otherwise puts nothing.  The result is
the list of messages enqueued by the call. -/
def MultipleProcessProgressManager.update (m : MultipleProcessProgressManager)
    (current_index total : ℕ) : List ℤ :=
  let update_interval := m.update_interval total
  if 0 < current_index ∧ current_index % update_interval = 0 then
    [(update_interval : ℤ)]
  else
    []

/-- `final(total)` (progress.py lines 100-111): computes
`last_reported_index = (total // update_interval) * update_interval` and puts
`remaining = total - last_reported_index` on the queue when it is positive. -/
def MultipleProcessProgressManager.final (m : MultipleProcessProgressManager)
    (total : ℕ) : List ℤ :=
  let update_interval := m.update_interval total
  let last_reported_index := total / update_interval * update_interval
  let remaining := total - last_reported_index
  if 0 < remaining then [(remaining : ℤ)] else []

/-- The documented worker-side usage (class docstring, progress.py lines 46-51):
`update(i, total)` once per item for `i = 0, …, total-1` (0-based `enumerate`
index), then one `final(total)`.  The value is the full sequence of messages
this worker puts on the queue. -/
def workerTrace (m : MultipleProcessProgressManager) (total : ℕ) : List ℤ :=
  ((List.range total).map fun i => m.update i total).flatten ++ m.final total

/-- Model of the `tqdm` progress bar: its accumulated position and whether
`close()` has been called. -/
structure DisplaySink where
  displayed_total : ℤ
  closed : Bool
  deriving DecidableEq

/-- `tqdm.update(n)`: advances the bar position by `n`. -/
def DisplaySink.update (bar : DisplaySink) (n : ℤ) : DisplaySink :=
  { bar with displayed_total := bar.displayed_total + n }

/-- `tqdm.close()`. -/
def DisplaySink.close (bar : DisplaySink) : DisplaySink :=
  { bar with closed := true }

/-- `ProgressTracker.update(n=1)` (progress.py lines 137-147): drains every
message currently in the queue into the bar (FIFO `get_nowait` loop), then
advances the bar by `n` for the completed task.  Returns the queue contents
after the call (empty) and the new bar state. -/
def ProgressTracker.update (q : List ℤ) (bar : DisplaySink) (n : ℕ) :
    List ℤ × DisplaySink :=
  ([], DisplaySink.update (q.foldl DisplaySink.update bar) (n : ℤ))

/-- `ProgressTracker.drain_remaining` (progress.py lines 149-156): drains every
message currently in the queue into the bar, in FIFO order. -/
def ProgressTracker.drain_remaining (q : List ℤ) (bar : DisplaySink) :
    List ℤ × DisplaySink :=
  ([], q.foldl DisplaySink.update bar)

/-- How the body of the `with manager.progress(...)` block exits. -/
inductive BodyExit where
  | normal
  | raised
  deriving DecidableEq

/-- The `finally` block of `progress` (progress.py lines 158-164):
`drain_remaining()` then `progress_bar.close()`. -/
def progressFinally (q : List ℤ) (bar : DisplaySink) : DisplaySink :=
  DisplaySink.close (ProgressTracker.drain_remaining q bar).2

/-- The exit path of the `progress` context manager (progress.py lines
158-164), as a function of the body outcome `e`, the queue contents `q` and
the bar state `bar` at the moment the body exits.  The `try: yield … finally:`
structure of the source runs the identical `finally` block whether the body
returned normally or raised; the method reads only `self.queue`, so no other
manager attribute influences the exit path. -/
def MultipleProcessProgressManager.progress (_m : MultipleProcessProgressManager)
    (e : BodyExit) (q : List ℤ) (bar : DisplaySink) : DisplaySink :=
  match e with
  | BodyExit.normal => progressFinally q bar
  | BodyExit.raised => progressFinally q bar

/-- Modelled from the spec (§4.1, refinement target for the interval formula):
`interval = max(1, floor(total * percent / 100))` with `percent` in percent
units. -/
def spec_interval (percent : ℚ) (total : ℕ) : ℕ :=
  (max 1 ⌊(total : ℚ) * percent / 100⌋).toNat

/-- Modelled from the spec (§7): the error taxonomy entry raised at
construction time. -/
inductive ProgressError where
  | configurationError
  deriving DecidableEq

/-- Modelled from the spec (§6, §7): a checked constructor that raises
`ConfigurationError` for a non-positive percentage and otherwise builds the
manager.  This definition follows the spec's words; the source constructor
`MultipleProcessProgressManager.init` is the code's actual behaviour. -/
def init_checked (queue_handle worker_number : ℕ) (step : ℚ) :
    Except ProgressError MultipleProcessProgressManager :=
  if 0 < step then
    Except.ok (MultipleProcessProgressManager.init queue_handle worker_number step)
  else
    Except.error ProgressError.configurationError

/-- Helper: the interval is clamped to at least 1 by the `max(1, …)` in the
source. -/
lemma update_interval_pos (m : MultipleProcessProgressManager) (total : ℕ) :
    1 ≤ m.update_interval total := by
  unfold MultipleProcessProgressManager.update_interval
  have h : (1 : ℤ) ≤ max 1 (pyint ((total : ℚ) * m.step)) := le_max_left _ _
  omega

/-- Helper: under the outer `max 1`, Python truncation toward zero agrees with
the floor (they differ only on negative arguments, where both are clamped). -/
lemma max_one_pyint (q : ℚ) : max 1 (pyint q) = max 1 ⌊q⌋ := by
  unfold pyint
  split
  · next h =>
    have h1 : ⌈q⌉ ≤ 0 := Int.ceil_le.mpr (by exact_mod_cast h.le)
    have h2 : ⌊q⌋ ≤ ⌈q⌉ := Int.floor_le_ceil q
    omega
  · rfl

/-- Helper: draining a queue into the bar adds exactly the sum of the queued
messages and does not touch the closed flag. -/
lemma foldl_sink_update (q : List ℤ) (bar : DisplaySink) :
    (q.foldl DisplaySink.update bar).displayed_total = bar.displayed_total + q.sum ∧
    (q.foldl DisplaySink.update bar).closed = bar.closed := by
  induction q generalizing bar with
  | nil => simp
  | cons x xs ih =>
    simp only [List.foldl_cons, List.sum_cons]
    rcases ih (DisplaySink.update bar x) with ⟨h1, h2⟩
    refine ⟨?_, h2⟩
    rw [h1]
    simp only [DisplaySink.update]
    omega

/-- C1: the spec claims that one `update` call per item followed by the final
flush transmits exactly `total` units for every positive `total` and every
step.  Evaluating the code refutes this: with the default step and a single
item nothing at all is enqueued (sum 0 instead of 1), and in the spec's own
end-to-end scenario (50 items per worker at 10 percent, interval 5) each
worker transmits only 45 of its 50 units — a full interval is lost whenever
the interval divides `total`, because `update` is called with 0-based indices
`0 … total-1` while `final` assumes a report happened at index `total`. -/
theorem C1_worker_trace_loses_units :
    (workerTrace (MultipleProcessProgressManager.init 0 1 (5/1000)) 1).sum = 0 ∧
    (workerTrace (MultipleProcessProgressManager.init 0 2 (1/10)) 50).sum = 45 := by
  decide

/-- C2 counterexample: the spec claims the coordinator closes only after
observing exactly `worker_number` completion (`Done`) messages.  In the code
there is no completion message at all: with `worker_number = 2` and a channel
on which no message of any kind was ever observed, exiting the context still
closes the display sink. -/
theorem C2_closes_without_completion_messages :
    (MultipleProcessProgressManager.init 0 2 (1/200)).worker_number = 2 ∧
    (MultipleProcessProgressManager.init 0 2 (1/200)).progress BodyExit.normal []
      { displayed_total := 0, closed := false } =
      { displayed_total := 0, closed := true } :=
  ⟨rfl, rfl⟩

/-- C2 amended: the coordinator closes the display sink exactly when the
progress context exits, whether the body returned or raised; the exit path is
the same for every manager (in particular `worker_number` is never consulted)
and the sink always ends closed. -/
theorem C2_close_exactly_on_context_exit :
    ∀ (m m' : MultipleProcessProgressManager) (e e' : BodyExit) (q : List ℤ)
      (bar : DisplaySink),
      m.progress e q bar = m'.progress e' q bar ∧
      (m.progress e q bar).closed = true := by
  intro m m' e e' q bar
  cases e <;> cases e' <;> exact ⟨rfl, rfl⟩

/-- C4: on every exit path of the progress context — the body returning
normally or raising — the coordinator is literally the composition
`close ∘ drain_remaining`: it drains all currently queued messages into the
display sink (adding exactly their sum, not touching the closed flag) strictly
before closing the sink, after which the sink is closed and holds all
drained units. -/
theorem C4_drain_before_close_on_all_exit_paths :
    ∀ (m : MultipleProcessProgressManager) (e : BodyExit) (q : List ℤ)
      (bar : DisplaySink),
      m.progress e q bar = DisplaySink.close (ProgressTracker.drain_remaining q bar).2 ∧
      (ProgressTracker.drain_remaining q bar).2.displayed_total =
        bar.displayed_total + q.sum ∧
      (ProgressTracker.drain_remaining q bar).2.closed = bar.closed ∧
      (m.progress e q bar).displayed_total = bar.displayed_total + q.sum ∧
      (m.progress e q bar).closed = true := by
  intro m e q bar
  have h := foldl_sink_update q bar
  cases e
  · exact ⟨rfl, h.1, h.2, h.1, rfl⟩
  · exact ⟨rfl, h.1, h.2, h.1, rfl⟩

/-- C5 counterexample: the spec claims the worker-side flush is idempotent
(at most one non-empty Delta from two consecutive calls).  `final` is
stateless: with step 2/3 and total 3 (interval 2, remainder 1) each of two
consecutive calls enqueues the same Delta 1, so two non-empty messages are
sent and the remainder is double counted. -/
theorem C5_second_flush_repeats_delta :
    (MultipleProcessProgressManager.init 0 1 (2/3)).final 3 ++
      (MultipleProcessProgressManager.init 0 1 (2/3)).final 3 = [1, 1] := by
  decide

/-- C5 amended: `final` is a pure function of `total`, so two consecutive
calls enqueue either nothing (when the interval divides `total`) or the same
positive remainder twice — the second call is a no-op only in the divisible
case. -/
theorem C5_double_flush_characterization :
    ∀ (m : MultipleProcessProgressManager) (total : ℕ),
      m.final total ++ m.final total =
        if total % m.update_interval total = 0 then []
        else [((total % m.update_interval total : ℕ) : ℤ),
              ((total % m.update_interval total : ℕ) : ℤ)] := by
  intro m total
  have hmod : total - total / m.update_interval total * m.update_interval total =
      total % m.update_interval total :=
    Nat.sub_eq_of_eq_add (Nat.mod_add_div' total (m.update_interval total)).symm
  simp only [MultipleProcessProgressManager.final]
  rw [hmod]
  by_cases h : total % m.update_interval total = 0
  · simp [h]
  · have hpos : 0 < total % m.update_interval total := Nat.pos_of_ne_zero h
    simp [h, hpos]

/-- C6: every value the worker-side `update` or `final` places on the channel
is a strictly positive integer, for every manager (hence every configured
step), every `current_index` and every `total`: `update` only enqueues the
interval, which is clamped to at least 1, and `final` only enqueues the
remainder under a positivity guard. -/
theorem C6_enqueued_deltas_positive :
    ∀ (m : MultipleProcessProgressManager) (current_index total : ℕ) (x : ℤ),
      x ∈ m.update current_index total ∨ x ∈ m.final total → 0 < x := by
  intro m i total x h
  have hI : 1 ≤ m.update_interval total := update_interval_pos m total
  rcases h with h | h
  · simp only [MultipleProcessProgressManager.update] at h
    split at h
    · rw [List.mem_singleton] at h
      subst h
      exact_mod_cast Nat.lt_of_lt_of_le Nat.zero_lt_one hI
    · simp at h
  · simp only [MultipleProcessProgressManager.final] at h
    split at h
    · next hrem =>
      rw [List.mem_singleton] at h
      subst h
      exact_mod_cast hrem
    · simp at h

/-- C6 witness: at step 2/3, index 2, total 3 the `update` call enqueues the
interval 2, and the theorem yields its positivity. -/
theorem C6_enqueued_deltas_positive_witness :
    ((2 : ℤ) ∈ (MultipleProcessProgressManager.init 0 1 (2/3)).update 2 3 ∨
      (2 : ℤ) ∈ (MultipleProcessProgressManager.init 0 1 (2/3)).final 3) ∧ (0 : ℤ) < 2 :=
  ⟨Or.inl (by decide),
    C6_enqueued_deltas_positive (MultipleProcessProgressManager.init 0 1 (2/3)) 2 3 2
      (Or.inl (by decide))⟩

/-- C7: given that the queued messages are positive (as every message the
accumulator operations produce is), both coordinator-side operations —
the per-task `ProgressTracker.update` and the terminal `drain_remaining` —
only add to the display sink's total and never decrease it. -/
theorem C7_displayed_total_monotone :
    ∀ (q : List ℤ) (bar : DisplaySink) (n : ℕ),
      (∀ x ∈ q, (0 : ℤ) < x) →
        bar.displayed_total ≤ ((ProgressTracker.update q bar n).2).displayed_total ∧
        bar.displayed_total ≤
          ((ProgressTracker.drain_remaining q bar).2).displayed_total := by
  intro q bar n hq
  have hsum : 0 ≤ q.sum := List.sum_nonneg fun x hx => le_of_lt (hq x hx)
  have h := (foldl_sink_update q bar).1
  constructor
  · show bar.displayed_total ≤
      (DisplaySink.update (q.foldl DisplaySink.update bar) (n : ℤ)).displayed_total
    simp only [DisplaySink.update]
    rw [h]
    omega
  · show bar.displayed_total ≤ (q.foldl DisplaySink.update bar).displayed_total
    rw [h]
    omega

/-- C7 witness: draining the queue `[3]` and completing one task from bar
position 5 does not decrease the displayed total. -/
theorem C7_displayed_total_monotone_witness :
    (∀ x ∈ ([3] : List ℤ), (0 : ℤ) < x) ∧
    ({ displayed_total := 5, closed := false } : DisplaySink).displayed_total ≤
      ((ProgressTracker.update [3] { displayed_total := 5, closed := false } 1).2).displayed_total :=
  ⟨by decide,
    (C7_displayed_total_monotone [3] { displayed_total := 5, closed := false } 1 (by decide)).1⟩

/-- C8: for every manager (any configured step, positive or not) and every
`total`, including 0, the computed flush interval is clamped to at least 1 by
the `max(1, …)`, so it is never zero and the `%` in `update` never divides by
zero. -/
theorem C8_interval_never_zero :
    ∀ (m : MultipleProcessProgressManager) (total : ℕ),
      1 ≤ m.update_interval total ∧ m.update_interval total ≠ 0 := by
  intro m total
  have h := update_interval_pos m total
  exact ⟨h, by omega⟩

/-- C9 counterexample: the spec claims construction with a non-positive
percentage raises `ConfigurationError`.  The code's constructor performs no
validation: with step -1/100 it succeeds and stores the invalid step, while
the spec-modelled checked constructor rejects the same input. -/
theorem C9_init_accepts_nonpositive_step :
    MultipleProcessProgressManager.init 0 1 (-1/100) =
      { queue := 0, worker_number := 1, step := -1/100 } ∧
    init_checked 0 1 (-1/100) = Except.error ProgressError.configurationError :=
  ⟨rfl, rfl⟩

/-- C9 amended: construction never raises — every step, non-positive included,
is accepted and stored verbatim; only the spec-modelled checked constructor
distinguishes positive from non-positive steps. -/
theorem C9_init_never_raises :
    ∀ (queue_handle worker_number : ℕ) (step : ℚ),
      (0 < step → init_checked queue_handle worker_number step =
        Except.ok (MultipleProcessProgressManager.init queue_handle worker_number step)) ∧
      (step ≤ 0 → init_checked queue_handle worker_number step =
        Except.error ProgressError.configurationError) ∧
      MultipleProcessProgressManager.init queue_handle worker_number step =
        { queue := queue_handle, worker_number := worker_number, step := step } := by
  intro qh w step
  refine ⟨fun h => ?_, fun h => ?_, rfl⟩
  · unfold init_checked
    rw [if_pos h]
  · unfold init_checked
    rw [if_neg (not_lt.mpr h)]

/-- C9 witness: with the positive default step 1/200 the checked constructor
agrees with the code's constructor. -/
theorem C9_init_never_raises_witness :
    (0 : ℚ) < 1/200 ∧ init_checked 3 4 (1/200) =
      Except.ok (MultipleProcessProgressManager.init 3 4 (1/200)) :=
  ⟨by decide, (C9_init_never_raises 3 4 (1/200)).1 (by decide)⟩

/-- C10: pickling round-trips exactly — `__setstate__` applied to the
`__getstate__` dictionary rebuilds an equal manager, and the dictionary
carries exactly the queue handle, `worker_number` and `step` of the
original. -/
theorem C10_pickle_roundtrip :
    ∀ m : MultipleProcessProgressManager,
      MultipleProcessProgressManager.setstate (MultipleProcessProgressManager.getstate m) = m ∧
      (MultipleProcessProgressManager.getstate m).queue = m.queue ∧
      (MultipleProcessProgressManager.getstate m).worker_number = m.worker_number ∧
      (MultipleProcessProgressManager.getstate m).step = m.step := by
  intro m
  exact ⟨rfl, rfl, rfl, rfl⟩

/-- C3 counterexample: the spec claims the flush interval equals
`max(1, floor(total * percent / 100))` for every positive total and percent.
Under the source's binary64 semantics this fails: with `step` holding the
double nearest 1/3, namely 6004799503160661/2^54 (a positive percentage of
about 33.33), and `total = 6`, the float product is 2 - 2^-53, exactly halfway
between adjacent doubles, and round-half-to-even lands on 2.0, so
`max(1, int(total * self.step))` yields 2 while the spec's exact formula
yields `max(1, floor(2 - 2^-53)) = 1`. -/
theorem C3_binary64_product_breaks_formula :
    (0 : ℚ) < 100 * (6004799503160661 / 2 ^ 54) ∧
    (MultipleProcessProgressManager.init 0 1
      ((100 * (6004799503160661 / 2 ^ 54)) / 100)).update_interval_fl64 6 = 2 ∧
    spec_interval (100 * (6004799503160661 / 2 ^ 54)) 6 = 1 := by
  refine ⟨by decide, by decide, by decide⟩

set_option maxRecDepth 8000 in
/-- C3 amended: whenever the binary64 product `total * step` is exactly
representable (it rounds to itself), the interval the code computes equals the
spec's `max(1, floor(total * percent / 100))` with `step = percent / 100`; in
particular for total 1000 and percent 0.5 — where `step` holds the double
nearest 0.005, namely 5764607523034235/2^60, and the product rounds to exactly
5.0 — the code computes interval 5, matching the spec formula's 5. -/
theorem C3_interval_matches_spec_on_exact_products :
    (∀ (queue_handle worker_number total : ℕ) (percent : ℚ),
        fl64 ((total : ℚ) * (percent / 100)) = (total : ℚ) * (percent / 100) →
        (MultipleProcessProgressManager.init queue_handle worker_number
          (percent / 100)).update_interval_fl64 total = spec_interval percent total) ∧
    (MultipleProcessProgressManager.init 0 1
      (5764607523034235 / 2 ^ 60)).update_interval_fl64 1000 = 5 ∧
    spec_interval (1/2) 1000 = 5 := by
  refine ⟨?_, by decide, by decide⟩
  intro qh w total percent h
  unfold MultipleProcessProgressManager.update_interval_fl64 spec_interval
  rw [show (MultipleProcessProgressManager.init qh w (percent / 100)).step =
    percent / 100 from rfl]
  rw [h, max_one_pyint, mul_div_assoc]

/-- C3 witness: the product 6 * 0.25 = 1.5 is exactly representable, and there
the code's binary64 interval agrees with the spec formula. -/
theorem C3_interval_matches_spec_on_exact_products_witness :
    fl64 ((6 : ℚ) * (25 / 100)) = (6 : ℚ) * (25 / 100) ∧
    (MultipleProcessProgressManager.init 0 1
      ((25 : ℚ) / 100)).update_interval_fl64 6 = spec_interval 25 6 :=
  ⟨by decide, C3_interval_matches_spec_on_exact_products.1 0 1 6 25 (by decide)⟩

end ProgressEmbedding
